import Mathlib

/-!
Verification development for the Lantiq TAPI channel driver
(`src/channels/chan_lantiq.c`).  The per-port line state machine, digit
collector, call-origination entry points, device-state query and the RTP
media packetizer are shallowly embedded as executable Lean functions; the
theorems at the end of the file settle the behavioural claims about them.

Hardware side effects (ioctls, tone playback, ring cadence, queued frames)
are recorded as an explicit list of `Action`s; LED control and debug
logging are omitted.  Calls into the Asterisk core whose outcome the
driver merely branches on (dialplan lookup, channel allocation, PBX
start, the media-transport `write`) are supplied as oracles.
-/

namespace ChanLantiq

/-- Port states, mirroring `enum channel_state` in the source. -/
inductive ChannelState where
  | ONHOOK
  | OFFHOOK
  | DIALING
  | INCALL
  | CALL_ENDED
  | RINGING
  | UNKNOWN
deriving DecidableEq

/-- Numeric value of each enumerator, as laid out by the C `enum`
(`ONHOOK` is the first enumerator, hence 0). -/
def ChannelState.toNat : ChannelState → Nat
  | .ONHOOK => 0
  | .OFFHOOK => 1
  | .DIALING => 2
  | .INCALL => 3
  | .CALL_ENDED => 4
  | .RINGING => 5
  | .UNKNOWN => 6

/-- C logical negation `!` on an integer rvalue: nonzero becomes 0,
zero becomes 1.  Needed because the source twice writes
`if (! pvt->channel_state == ONHOOK)`, which by C precedence parses as
`(!pvt->channel_state) == ONHOOK`. -/
def cNot (n : Nat) : Nat := if n = 0 then 1 else 0

/-! Constants from the source and from Asterisk's public headers. -/

def TAPI_TONE_LOCALE_NONE : Nat := 0
def TAPI_TONE_LOCALE_RINGING_CODE : Nat := 26
def TAPI_TONE_LOCALE_BUSY_CODE : Nat := 27
def TAPI_TONE_LOCALE_DIAL_CODE : Nat := 25

/-- Asterisk's `AST_MAX_EXTENSION` (size of the `dtmfbuf` array).  The
header is external to this repository; 80 is its value in the targeted
Asterisk release.  No theorem below depends on the exact value. -/
def AST_MAX_EXTENSION : Nat := 80

def AST_STATE_DOWN : Nat := 0
def AST_STATE_RING : Nat := 4
def AST_STATE_RINGING : Nat := 5
def AST_STATE_UP : Nat := 6
def AST_STATE_BUSY : Nat := 7

def AST_CONTROL_RINGING : Nat := 3
def AST_CONTROL_ANSWER : Nat := 4
def AST_CONTROL_BUSY : Nat := 5

def AST_DEVICE_UNKNOWN : Int := 0
def AST_DEVICE_NOT_INUSE : Int := 1
def AST_DEVICE_INUSE : Int := 2
def AST_DEVICE_INVALID : Int := 4
def AST_DEVICE_RINGING : Int := 6

def RTP_HEADER_LEN : Nat := 12
def RTP_BUFFER_LEN : Nat := 512
def RTP_G722 : Nat := 9
def RTP_SIREN7 : Nat := 105
def AST_FRAME_VOICE : Nat := 1

/-- Externally visible side effects of the driver, in program order. -/
inductive Action where
  | ringStart
  | ringStop
  | playTone (t : Nat)
  | standby
  | jbGetStats
  | queueHangup
  | queueControl (c : Nat)
  | setAstState (st : Nat)
  | startPbx (ext : List Char)
  | sendDigit (d : Char)
deriving DecidableEq

/-- The per-port fields of `struct lantiq_pvt` that the state machine and
digit collector read or write.  `dtmfbuf` is the dialed-digit buffer
(`dtmfbuf_len` in the source is its length); `dial_timer` records whether
an inter-digit timer is outstanding (the source stores a scheduler handle
and treats 0 as "none"); `owner` records whether a call leg is attached;
`ast_state` is the owning channel's `_state` (meaningful when `owner`). -/
structure LantiqPvt where
  channel_state : ChannelState
  dtmfbuf : List Char
  dial_timer : Bool
  owner : Bool
  ast_state : Nat
deriving DecidableEq

/-- Oracles for the calls into the Asterisk core made by `lantiq_dial`:
`ast_exists_extension` on the buffered digits, whether
`ast_channel_alloc` succeeds, and whether `ast_pbx_start` succeeds. -/
structure Env where
  extExists : List Char → Bool
  allocOk : Bool
  pbxOk : Bool

/-- Source `lantiq_reset_dtmfbuf`: empty the digit buffer. -/
def lantiq_reset_dtmfbuf (s : LantiqPvt) : LantiqPvt := { s with dtmfbuf := [] }

/-- Effect on the port of `ast_hangup`/`ast_lantiq_hangup` being invoked
on the owning channel: `RINGING`/`ONHOOK` stop the ring and return to
`ONHOOK`, any other state becomes `CALL_ENDED` with a busy tone; jitter
statistics are captured, the channel's state is set down and the owner
reference cleared. -/
def ast_lantiq_hangup_pvt (s : LantiqPvt) : LantiqPvt × List Action :=
  let r : LantiqPvt × List Action :=
    match s.channel_state with
    | .RINGING | .ONHOOK => ({ s with channel_state := .ONHOOK }, [Action.ringStop])
    | _ => ({ s with channel_state := .CALL_ENDED },
            [Action.playTone TAPI_TONE_LOCALE_BUSY_CODE])
  ({ r.1 with owner := false, ast_state := AST_STATE_DOWN },
   r.2 ++ [Action.jbGetStats, Action.setAstState AST_STATE_DOWN])

/-- Source `lantiq_end_dialing`: cancel a pending dial timer, hang up a
partially built call leg if one exists, and reset the digit buffer. -/
def lantiq_end_dialing (s : LantiqPvt) : LantiqPvt × List Action :=
  let s1 := if s.dial_timer then { s with dial_timer := false } else s
  let r := if s1.owner then ast_lantiq_hangup_pvt s1 else (s1, [])
  (lantiq_reset_dtmfbuf r.1, r.2)

/-- Source `lantiq_end_call`: if a call leg owns the port, capture the
jitter-buffer statistics and queue exactly one hangup request to it. -/
def lantiq_end_call (s : LantiqPvt) : LantiqPvt × List Action :=
  if s.owner then (s, [Action.jbGetStats, Action.queueHangup]) else (s, [])

/-- Source `lantiq_dial`: look the buffered digits up in the dialplan.
On a match, allocate a call leg (`lantiq_channel` with `AST_STATE_UP`),
make it the owner, set its state to `AST_STATE_RING`, move the port to
`INCALL` and start the PBX (hanging the leg up again if that fails).  On
no match, play a busy tone and move to `CALL_ENDED`.  The buffer reset
sits after the if/else and is skipped by the `goto bailout` taken when
channel allocation fails. -/
def lantiq_dial (env : Env) (s : LantiqPvt) : LantiqPvt × List Action :=
  if env.extExists s.dtmfbuf then
    if env.allocOk then
      let s1 := { s with owner := true, ast_state := AST_STATE_UP }
      let s2 := { s1 with ast_state := AST_STATE_RING, channel_state := .INCALL }
      if env.pbxOk then
        (lantiq_reset_dtmfbuf s2, [Action.startPbx s.dtmfbuf])
      else
        let r := ast_lantiq_hangup_pvt s2
        (lantiq_reset_dtmfbuf r.1, Action.startPbx s.dtmfbuf :: r.2)
    else
      (s, [])
  else
    (lantiq_reset_dtmfbuf { s with channel_state := .CALL_ENDED },
     [Action.playTone TAPI_TONE_LOCALE_BUSY_CODE])

/-- Source `lantiq_event_dial_timeout`: the fired single-shot timer clears
its handle and, under the source condition `! pvt->channel_state == ONHOOK`
(which evaluates to `channel_state != ONHOOK`), attempts the dial. -/
def lantiq_event_dial_timeout (env : Env) (s : LantiqPvt) : LantiqPvt × List Action :=
  let s1 := { s with dial_timer := false }
  if cNot s1.channel_state.toNat = ChannelState.ONHOOK.toNat then
    lantiq_dial env s1
  else
    (s1, [])

/-- Source `lantiq_send_digit`: forward a DTMF digit to the owner. -/
def lantiq_send_digit (s : LantiqPvt) (d : Char) : LantiqPvt × List Action :=
  if s.owner then (s, [Action.sendDigit d]) else (s, [])

/-- Source `lantiq_dev_event_digit`: during a call the digit is forwarded;
in `OFFHOOK` the port falls through to `DIALING` (stopping the dial tone);
in `DIALING`, `#` cancels the timer and dials, any other digit is appended
when `dtmfbuf_len < AST_MAX_EXTENSION - 1` and (re)arms the inter-digit
timer, and on a full buffer dialing is aborted: `lantiq_end_dialing`,
busy tone, `CALL_ENDED`.  Other states ignore the digit. -/
def lantiq_dev_event_digit (env : Env) (s : LantiqPvt) (d : Char) :
    LantiqPvt × List Action :=
  match s.channel_state with
  | .INCALL => lantiq_send_digit s d
  | .OFFHOOK | .DIALING =>
    let r0 : LantiqPvt × List Action :=
      if s.channel_state = .OFFHOOK then
        ({ s with channel_state := .DIALING }, [Action.playTone TAPI_TONE_LOCALE_NONE])
      else (s, [])
    if d = '#' then
      let s1 := if r0.1.dial_timer then { r0.1 with dial_timer := false } else r0.1
      let r2 := lantiq_dial env s1
      (r2.1, r0.2 ++ r2.2)
    else
      if r0.1.dtmfbuf.length < AST_MAX_EXTENSION - 1 then
        ({ r0.1 with dtmfbuf := r0.1.dtmfbuf ++ [d], dial_timer := true }, r0.2)
      else
        let r1 := lantiq_end_dialing r0.1
        ({ r1.1 with channel_state := .CALL_ENDED },
         r0.2 ++ r1.2 ++ [Action.playTone TAPI_TONE_LOCALE_BUSY_CODE])
  | _ => (s, [])

/-- Source `accept_call`: going off-hook while the owner channel is in
`AST_STATE_RINGING` stops the tone, queues an answer and enters `INCALL`. -/
def accept_call (s : LantiqPvt) : LantiqPvt × List Action :=
  if s.owner then
    if s.ast_state = AST_STATE_RINGING then
      ({ s with channel_state := .INCALL },
       [Action.playTone TAPI_TONE_LOCALE_NONE, Action.queueControl AST_CONTROL_ANSWER])
    else (s, [])
  else (s, [])

/-- Side effects of `lantiq_standby`: stop the line feed and codecs and
silence any tone. -/
def lantiq_standby_actions : List Action :=
  [Action.standby, Action.playTone TAPI_TONE_LOCALE_NONE]

/-- Source `lantiq_dev_event_hook`.  Going on-hook ends dialing or the
active call according to the current state and always lands in `ONHOOK`
with the DSP in standby.  Going off-hook accepts a ringing call or starts
the dial tone in `OFFHOOK`. -/
def lantiq_dev_event_hook (s : LantiqPvt) (onhook : Bool) : LantiqPvt × List Action :=
  if onhook then
    let r : LantiqPvt × List Action :=
      match s.channel_state with
      | .DIALING => lantiq_end_dialing s
      | .INCALL => lantiq_end_call s
      | _ => (s, [])
    ({ r.1 with channel_state := .ONHOOK }, r.2 ++ lantiq_standby_actions)
  else
    match s.channel_state with
    | .RINGING => accept_call s
    | _ => ({ s with channel_state := .OFFHOOK },
            [Action.playTone TAPI_TONE_LOCALE_DIAL_CODE])

/-- Source `ast_lantiq_call` (call origination).  Only the port state is
read and written: an idle (`ONHOOK`) port starts ringing and reports
`AST_CONTROL_RINGING`; any other state reports busy and returns -1,
leaving the port state untouched. -/
def ast_lantiq_call (st : ChannelState) : Int × ChannelState × List Action :=
  if st = .ONHOOK then
    (0, .RINGING,
     [Action.ringStart, Action.setAstState AST_STATE_RINGING,
      Action.queueControl AST_CONTROL_RINGING])
  else
    (-1, st,
     [Action.setAstState AST_STATE_BUSY, Action.queueControl AST_CONTROL_BUSY])

/-- The in-use test of `ast_lantiq_requester`, written in the source as
`if (! pvt->channel_state == ONHOOK)` and embedded here with C
precedence: `(!channel_state) == ONHOOK`.  `true` means the requester
logs "already in use" and creates no channel. -/
def requester_busy_check (st : ChannelState) : Bool :=
  cNot st.toNat == ChannelState.ONHOOK.toNat

/-- Source `ast_lantiq_requester`, reduced to whether a channel is
created for the parsed port number `n` (1-based): the number must be in
`1..channels`, and the in-use check must pass. -/
def ast_lantiq_requester_creates (channels : Nat) (n : Int) (st : ChannelState) : Bool :=
  if n < 1 ∨ (channels : Int) < n then false
  else !(requester_busy_check st)

/-- Mapping of port states to device states in `ast_lantiq_devicestate`. -/
def device_state_of : ChannelState → Int
  | .ONHOOK => AST_DEVICE_NOT_INUSE
  | .OFFHOOK | .DIALING | .INCALL | .CALL_ENDED => AST_DEVICE_INUSE
  | .RINGING => AST_DEVICE_RINGING
  | .UNKNOWN => AST_DEVICE_UNKNOWN

/-- The validation in `ast_lantiq_devicestate`: with `port = n - 1`, the
query is rejected when `port < 1 || port > channels`. -/
def devicestate_rejects (channels : Nat) (n : Int) : Bool :=
  decide (n - 1 < 1) || decide ((channels : Int) < n - 1)

/-- Source `ast_lantiq_devicestate` over a port table `table` (one entry
per configured channel).  A rejected query returns `AST_DEVICE_INVALID`;
an accepted one reads `iflist[n - 1]`, which in the model is `none` when
the index is out of bounds (the C code reads past the table there). -/
def ast_lantiq_devicestate (table : List ChannelState) (n : Int) : Option Int :=
  if devicestate_rejects table.length n then some AST_DEVICE_INVALID
  else
    match table.get? (n - 1).toNat with
    | some st => some (device_state_of st)
    | none => none

/-- Hardware/timer events dispatched to one port. -/
inductive Event where
  | hook (onhook : Bool)
  | digit (d : Char)
  | timeout
deriving DecidableEq

/-- Dispatch of one event to its handler. -/
def lantiq_step (env : Env) (s : LantiqPvt) : Event → LantiqPvt × List Action
  | .hook h => lantiq_dev_event_hook s h
  | .digit d => lantiq_dev_event_digit env s d
  | .timeout => lantiq_event_dial_timeout env s

/-- Resulting port state after a sequence of events. -/
def runEvents (env : Env) : LantiqPvt → List Event → LantiqPvt
  | s, [] => s
  | s, e :: es => runEvents env (lantiq_step env s e).1 es

/-! The RTP media packetizer of `ast_lantiq_write`. -/

/-- The fields of `struct ast_frame` read by `ast_lantiq_write`. -/
structure Frame where
  frametype : Nat
  codec : Nat
  datalen : Nat
  len : Nat
  samples : Nat

/-- One attempted media-transport write: the RTP header fields it carries
and its payload length. -/
structure Packet where
  seqno : Nat
  timestamp : Nat
  payloadLen : Nat
deriving DecidableEq

/-- Result of `ast_lantiq_write`: the packets handed to `write` in order,
the port's final sequence number and RTP timestamp, and the return code. -/
structure WriteResult where
  packets : List Packet
  seqno : Nat
  timestamp : Nat
  code : Int
deriving DecidableEq

/-- Sample count of a chunk, as the source computes it:
`length * frame->samples / frame->datalen`. -/
def chunkSamples (fsamples datalen plen : Nat) : Nat := plen * fsamples / datalen

/-- Timestamp advance per emitted chunk:
`(payload_type == RTP_G722) ? samples / 2 : samples` (per RFC3551). -/
def tsAdvance (payload fsamples datalen plen : Nat) : Nat :=
  if payload = RTP_G722 then chunkSamples fsamples datalen plen / 2
  else chunkSamples fsamples datalen plen

/-- The `while (head < tail)` loop of `ast_lantiq_write`.  `head` is the
offset already consumed, `clen0` the precomputed default chunk length,
`wr k` the return value of the `k`-th `write` call.  Each iteration
post-increments the 16-bit sequence number, shortens the final chunk when
fewer than `RTP_BUFFER_LEN - RTP_HEADER_LEN` bytes remain, advances the
32-bit timestamp, and then writes; a negative write aborts with -1, any
other result (including a short write) moves to the next chunk.  `fuel`
bounds the iteration count (the caller passes more than enough). -/
def writeLoop (payload fsamples datalen clen0 : Nat) (wr : Nat → Int) :
    Nat → Nat → Nat → Nat → Nat → WriteResult
  | 0, _, seq, ts, _ => ⟨[], seq, ts, 0⟩
  | fuel + 1, head, seq, ts, k =>
    if head < datalen then
      let remaining := datalen - head
      let length := if remaining < RTP_BUFFER_LEN - RTP_HEADER_LEN then remaining else clen0
      let pkt : Packet := ⟨seq, ts, length⟩
      let seq1 := (seq + 1) % 65536
      let ts1 := (ts + tsAdvance payload fsamples datalen length) % 4294967296
      if wr k < 0 then
        ⟨[pkt], seq1, ts1, -1⟩
      else
        let r := writeLoop payload fsamples datalen clen0 wr fuel (head + length) seq1 ts1 (k + 1)
        ⟨pkt :: r.packets, r.seqno, r.timestamp, r.code⟩
    else
      ⟨[], seq, ts, 0⟩

/-- Number of subframes in an Asterisk frame:
`(ptime + frame->len - 1) / ptime`. -/
def subframesOf (ptime flen : Nat) : Nat := (ptime + flen - 1) / ptime

/-- The RTP-related per-port fields read by `ast_lantiq_write`. -/
structure RtpPvt where
  codec : Nat
  rtp_payload : Nat
  ptime : Nat
  rtp_seqno : Nat
  rtp_timestamp : Nat

/-- Source `ast_lantiq_write`: non-voice frames, frames in an unexpected
codec and zero-length frames are ignored; otherwise the frame is split
into chunks of `subframes_rtp * datalen / subframes` bytes (the last
chunk possibly shorter) and one packet written per chunk. -/
def ast_lantiq_write (pvt : RtpPvt) (f : Frame) (wr : Nat → Int) : WriteResult :=
  if f.frametype ≠ AST_FRAME_VOICE then ⟨[], pvt.rtp_seqno, pvt.rtp_timestamp, 0⟩
  else if f.codec ≠ pvt.codec then ⟨[], pvt.rtp_seqno, pvt.rtp_timestamp, 0⟩
  else if f.datalen = 0 then ⟨[], pvt.rtp_seqno, pvt.rtp_timestamp, 0⟩
  else
    let sf := subframesOf pvt.ptime f.len
    let sfr := (RTP_BUFFER_LEN - RTP_HEADER_LEN) * sf / f.datalen
    let clen0 := sfr * f.datalen / sf
    writeLoop pvt.rtp_payload f.samples f.datalen clen0 wr
      (f.datalen + 1) 0 pvt.rtp_seqno pvt.rtp_timestamp 0

/-- The emitted packets carry the running sequence number: the head
carries `s`, its successor `(s + 1) % 65536`, and so on. -/
def SeqChain : Nat → List Packet → Prop
  | _, [] => True
  | s, p :: ps => p.seqno = s ∧ SeqChain ((s + 1) % 65536) ps

/-- The emitted packets carry the running timestamp, which advances by
`tsAdvance` of each packet's payload length. -/
def TsChain (payload fsamples datalen : Nat) : Nat → List Packet → Prop
  | _, [] => True
  | t, p :: ps =>
    p.timestamp = t ∧
    TsChain payload fsamples datalen
      ((t + tsAdvance payload fsamples datalen p.payloadLen) % 4294967296) ps

/-! Concrete inputs used by the witness theorems. -/

/-- Environment in which every dialplan lookup fails. -/
def envNoExt : Env := ⟨fun _ => false, true, true⟩

/-- Environment in which the lookup succeeds but channel allocation fails. -/
def envAllocFail : Env := ⟨fun _ => true, false, true⟩

/-- Environment in which lookup, allocation and PBX start all succeed. -/
def envAllOk : Env := ⟨fun _ => true, true, true⟩

/-- A port that has just gone off-hook. -/
def sOffhook : LantiqPvt := ⟨.OFFHOOK, [], false, false, 0⟩

/-- A dialing port holding one digit. -/
def sDialOne : LantiqPvt := ⟨.DIALING, ['1'], true, false, 0⟩

/-- A dialing port holding two digits. -/
def sDialTwo : LantiqPvt := ⟨.DIALING, ['2', '3'], true, false, 0⟩

/-- A dialing port whose digit buffer is at capacity. -/
def sDialFull : LantiqPvt := ⟨.DIALING, List.replicate 79 '5', true, false, 0⟩

/-- A port in an active call with an owner channel. -/
def sInCall : LantiqPvt := ⟨.INCALL, [], false, true, AST_STATE_UP⟩

/-- An idle port (as seen by a late-firing timer). -/
def sOnhookIdle : LantiqPvt := ⟨.ONHOOK, [], true, false, 0⟩

/-- A write oracle that always reports a full 512-byte write. -/
def wrOk : Nat → Int := fun _ => 512

/-- A write oracle that always fails. -/
def wrFail : Nat → Int := fun _ => -1

/-- RTP state starting at the largest 16-bit sequence number. -/
def pvtWrap : RtpPvt := ⟨8, 0, 10, 65535, 0⟩

/-- A voice frame that packetizes into two 500-byte chunks
(`subframes = 2`, `subframes_rtp = 1`, `length = 500`). -/
def fTwoChunks : Frame := ⟨1, 8, 1000, 20, 160⟩

/-- RTP state negotiated to the G722 payload type. -/
def pvtG722 : RtpPvt := ⟨10, 9, 20, 0, 0⟩

/-- A two-chunk wideband voice frame. -/
def fG722 : Frame := ⟨1, 10, 1000, 40, 320⟩

/-- RTP state used for the failing-write run. -/
def pvtA : RtpPvt := ⟨8, 0, 10, 100, 0⟩

/-- A voice frame of 600 bytes (chunked as 300 + 300). -/
def fSixHundred : Frame := ⟨1, 8, 600, 20, 160⟩

/-! Helper lemmas. -/

theorem hangup_pvt_dtmfbuf (s : LantiqPvt) :
    (ast_lantiq_hangup_pvt s).1.dtmfbuf = s.dtmfbuf := by
  rcases s with ⟨cs, buf, tim, ow, a⟩
  cases cs <;> rfl

theorem end_dialing_dtmfbuf (s : LantiqPvt) : (lantiq_end_dialing s).1.dtmfbuf = [] := rfl

theorem dial_dtmfbuf (env : Env) (s : LantiqPvt) :
    (lantiq_dial env s).1.dtmfbuf = [] ∨ (lantiq_dial env s).1 = s := by
  unfold lantiq_dial
  by_cases h1 : env.extExists s.dtmfbuf = true
  · by_cases h2 : env.allocOk = true
    · by_cases h3 : env.pbxOk = true
      · left; simp [h1, h2, h3, lantiq_reset_dtmfbuf]
      · left; simp [h1, h2, h3, lantiq_reset_dtmfbuf]
    · right; simp [h1, h2]
  · left; simp [h1, lantiq_reset_dtmfbuf]

theorem dial_dtmfbuf_len (env : Env) (s : LantiqPvt) :
    (lantiq_dial env s).1.dtmfbuf.length ≤ s.dtmfbuf.length := by
  rcases dial_dtmfbuf env s with h | h
  · simp [h]
  · simp [h]

theorem hook_dtmfbuf (s : LantiqPvt) (b : Bool) :
    (lantiq_dev_event_hook s b).1.dtmfbuf = [] ∨
    (lantiq_dev_event_hook s b).1.dtmfbuf = s.dtmfbuf := by
  rcases s with ⟨cs, buf, tim, ow, a⟩
  cases b <;> cases cs <;>
    simp [lantiq_dev_event_hook, lantiq_end_dialing, lantiq_end_call,
      lantiq_reset_dtmfbuf, accept_call, ast_lantiq_hangup_pvt] <;>
    first
      | rfl
      | (split_ifs <;> simp)

theorem step_dtmfbuf_lt (env : Env) (s : LantiqPvt) (e : Event)
    (h : s.dtmfbuf.length < AST_MAX_EXTENSION) :
    (lantiq_step env s e).1.dtmfbuf.length < AST_MAX_EXTENSION := by
  rcases s with ⟨cs, buf, tim, ow, a⟩
  cases e with
  | timeout =>
    show (lantiq_event_dial_timeout env ⟨cs, buf, tim, ow, a⟩).1.dtmfbuf.length < _
    unfold lantiq_event_dial_timeout
    dsimp only
    split
    · exact lt_of_le_of_lt (dial_dtmfbuf_len env _) h
    · exact h
  | hook b =>
    show (lantiq_dev_event_hook ⟨cs, buf, tim, ow, a⟩ b).1.dtmfbuf.length < _
    rcases hook_dtmfbuf ⟨cs, buf, tim, ow, a⟩ b with hh | hh
    · rw [hh]
      simp only [List.length_nil]
      omega
    · rw [hh]
      exact h
  | digit d =>
    show (lantiq_dev_event_digit env ⟨cs, buf, tim, ow, a⟩ d).1.dtmfbuf.length < _
    cases cs
    case ONHOOK => exact h
    case CALL_ENDED => exact h
    case RINGING => exact h
    case UNKNOWN => exact h
    case INCALL =>
      unfold lantiq_dev_event_digit lantiq_send_digit
      split_ifs <;> exact h
    case OFFHOOK =>
      by_cases hd : d = '#'
      · simp only [lantiq_dev_event_digit, hd, if_true, reduceCtorEq, ite_true, ite_false]
        split_ifs <;> exact lt_of_le_of_lt (dial_dtmfbuf_len env _) h
      · by_cases hlt : buf.length < AST_MAX_EXTENSION - 1
        · simp [lantiq_dev_event_digit, hd, hlt]
          omega
        · simp [lantiq_dev_event_digit, hd, hlt, lantiq_end_dialing,
            lantiq_reset_dtmfbuf]
          omega
    case DIALING =>
      by_cases hd : d = '#'
      · simp only [lantiq_dev_event_digit, hd, if_true, reduceCtorEq, ite_true, ite_false]
        split_ifs <;> exact lt_of_le_of_lt (dial_dtmfbuf_len env _) h
      · by_cases hlt : buf.length < AST_MAX_EXTENSION - 1
        · simp [lantiq_dev_event_digit, hd, hlt]
          omega
        · simp [lantiq_dev_event_digit, hd, hlt, lantiq_end_dialing,
            lantiq_reset_dtmfbuf]
          omega

theorem writeLoop_seqChain (payload fsamples datalen clen0 : Nat) (wr : Nat → Int) :
    ∀ fuel head seq ts k,
      SeqChain seq (writeLoop payload fsamples datalen clen0 wr fuel head seq ts k).packets := by
  intro fuel
  induction fuel with
  | zero => intro head seq ts k; trivial
  | succ n ih =>
    intro head seq ts k
    by_cases h1 : head < datalen
    · by_cases h2 : wr k < 0
      · simp only [writeLoop, h1, if_true, h2, ite_true]
        exact ⟨rfl, trivial⟩
      · simp only [writeLoop, h1, if_true, h2, ite_true, ite_false]
        exact ⟨rfl, ih _ _ _ _⟩
    · simp only [writeLoop, h1, ite_false]
      trivial

theorem seqChain_get :
    ∀ {ps : List Packet} {s : Nat}, SeqChain s ps →
      ∀ i (h : i + 1 < ps.length),
        (ps.get ⟨i + 1, h⟩).seqno =
          ((ps.get ⟨i, Nat.lt_of_succ_lt h⟩).seqno + 1) % 65536 := by
  intro ps
  induction ps with
  | nil => intro s _ i h; exact absurd h (by simp)
  | cons p ps ih =>
    intro s hc i h
    obtain ⟨hp, hrest⟩ := hc
    cases i with
    | zero =>
      cases ps with
      | nil => exact absurd h (by simp)
      | cons q qs =>
        obtain ⟨hq, _⟩ := hrest
        show q.seqno = (p.seqno + 1) % 65536
        rw [hq, hp]
    | succ j =>
      exact ih hrest j (by simp at h ⊢; omega)

theorem writeLoop_tsChain (payload fsamples datalen clen0 : Nat) (wr : Nat → Int) :
    ∀ fuel head seq ts k,
      TsChain payload fsamples datalen ts
        (writeLoop payload fsamples datalen clen0 wr fuel head seq ts k).packets := by
  intro fuel
  induction fuel with
  | zero => intro head seq ts k; trivial
  | succ n ih =>
    intro head seq ts k
    by_cases h1 : head < datalen
    · by_cases h2 : wr k < 0
      · simp only [writeLoop, h1, if_true, h2, ite_true]
        exact ⟨rfl, trivial⟩
      · simp only [writeLoop, h1, if_true, h2, ite_true, ite_false]
        exact ⟨rfl, ih _ _ _ _⟩
    · simp only [writeLoop, h1, ite_false]
      trivial

theorem tsChain_get {payload fsamples datalen : Nat} :
    ∀ {ps : List Packet} {t : Nat}, TsChain payload fsamples datalen t ps →
      ∀ i (h : i + 1 < ps.length),
        (ps.get ⟨i + 1, h⟩).timestamp =
          ((ps.get ⟨i, Nat.lt_of_succ_lt h⟩).timestamp +
            tsAdvance payload fsamples datalen
              (ps.get ⟨i, Nat.lt_of_succ_lt h⟩).payloadLen) % 4294967296 := by
  intro ps
  induction ps with
  | nil => intro t _ i h; exact absurd h (by simp)
  | cons p ps ih =>
    intro t hc i h
    obtain ⟨hp, hrest⟩ := hc
    cases i with
    | zero =>
      cases ps with
      | nil => exact absurd h (by simp)
      | cons q qs =>
        obtain ⟨hq, _⟩ := hrest
        show q.timestamp = (p.timestamp + tsAdvance payload fsamples datalen p.payloadLen) % 4294967296
        rw [hq, hp]
    | succ j =>
      exact ih hrest j (by simp at h ⊢; omega)

theorem ast_lantiq_write_seqChain (pvt : RtpPvt) (f : Frame) (wr : Nat → Int) :
    SeqChain pvt.rtp_seqno (ast_lantiq_write pvt f wr).packets := by
  unfold ast_lantiq_write
  split_ifs
  · trivial
  · trivial
  · trivial
  · exact writeLoop_seqChain _ _ _ _ wr _ _ _ _ _

theorem ast_lantiq_write_tsChain (pvt : RtpPvt) (f : Frame) (wr : Nat → Int) :
    TsChain pvt.rtp_payload f.samples f.datalen pvt.rtp_timestamp
      (ast_lantiq_write pvt f wr).packets := by
  unfold ast_lantiq_write
  split_ifs
  · trivial
  · trivial
  · trivial
  · exact writeLoop_tsChain _ _ _ _ wr _ _ _ _ _

theorem clen0_le_500 (s d : Nat) (hs : 0 < s) (_hd : 0 < d) :
    500 * s / d * d / s ≤ 500 := by
  have h1 : 500 * s / d * d ≤ 500 * s := Nat.div_mul_le_self _ _
  have h2 : 500 * s / d * d / s ≤ 500 * s / s := Nat.div_le_div_right h1
  have h3 : 500 * s / s = 500 := Nat.mul_div_cancel 500 hs
  omega

theorem writeLoop_payload_le (payload fsamples datalen clen0 : Nat) (wr : Nat → Int)
    (hc : clen0 ≤ RTP_BUFFER_LEN - RTP_HEADER_LEN) :
    ∀ fuel head seq ts k pkt,
      pkt ∈ (writeLoop payload fsamples datalen clen0 wr fuel head seq ts k).packets →
      pkt.payloadLen ≤ RTP_BUFFER_LEN - RTP_HEADER_LEN := by
  intro fuel
  induction fuel with
  | zero =>
    intro head seq ts k pkt hm
    exact absurd hm (by simp [writeLoop])
  | succ n ih =>
    intro head seq ts k pkt hm
    by_cases h1 : head < datalen
    · by_cases h2 : wr k < 0
      · simp only [writeLoop, h1, if_true, h2, ite_true, List.mem_singleton] at hm
        subst hm
        dsimp only
        split
        · omega
        · exact hc
      · simp only [writeLoop, h1, if_true, h2, ite_true, ite_false, List.mem_cons] at hm
        rcases hm with hm | hm
        · subst hm
          dsimp only
          split
          · omega
          · exact hc
        · exact ih _ _ _ _ pkt hm
    · simp only [writeLoop, h1, ite_false] at hm
      exact absurd hm (by simp)

theorem writeLoop_fail_prefix (payload fsamples datalen clen0 : Nat) (wr : Nat → Int) :
    ∀ fuel head seq ts k,
      (writeLoop payload fsamples datalen clen0 wr fuel head seq ts k).code = -1 →
      ∃ pre pkt,
        (writeLoop payload fsamples datalen clen0 wr fuel head seq ts k).packets =
          pre ++ [pkt] ∧
        wr (k + pre.length) < 0 ∧
        (∀ i < pre.length, 0 ≤ wr (k + i)) ∧
        (writeLoop payload fsamples datalen clen0 wr fuel head seq ts k).seqno =
          (pkt.seqno + 1) % 65536 ∧
        (writeLoop payload fsamples datalen clen0 wr fuel head seq ts k).timestamp =
          (pkt.timestamp + tsAdvance payload fsamples datalen pkt.payloadLen) %
            4294967296 := by
  intro fuel
  induction fuel with
  | zero =>
    intro head seq ts k hcode
    exact absurd hcode (by simp [writeLoop])
  | succ n ih =>
    intro head seq ts k hcode
    by_cases h1 : head < datalen
    · by_cases h2 : wr k < 0
      · simp only [writeLoop, h1, if_true, h2, ite_true]
        exact ⟨[], _, rfl, by simpa using h2, fun i hi => absurd hi (by simp), rfl, rfl⟩
      · simp only [writeLoop, h1, if_true, h2, ite_true, ite_false] at hcode ⊢
        obtain ⟨pre, pkt, ha, hb, hcnt, hs, ht⟩ := ih _ _ _ _ hcode
        refine
          ⟨Packet.mk seq ts
              (if datalen - head < RTP_BUFFER_LEN - RTP_HEADER_LEN then datalen - head
               else clen0) :: pre,
           pkt, ?_, ?_, ?_, hs, ht⟩
        · simp [ha]
        · have e : k + (pre.length + 1) = k + 1 + pre.length := by omega
          simpa [e] using hb
        · intro i hi
          cases i with
          | zero => simpa using Int.not_lt.mp h2
          | succ j =>
            have hj : j < pre.length := by simp at hi; omega
            have e : k + (j + 1) = k + 1 + j := by omega
            rw [e]
            exact hcnt j hj
    · exact absurd hcode (by simp [writeLoop, h1])

/-! Claim theorems. -/

/-- C1: a call origination (`ast_lantiq_call`) is rejected with -1 and a
queued busy indication exactly when the port is not `ONHOOK`; on rejection
the port state is unchanged and on acceptance it becomes `RINGING`, and
`ast_lantiq_requester` creates a channel exactly for a valid 1-based port
number whose port is `ONHOOK` (its inverted-looking in-use check
`! channel_state == ONHOOK` evaluates to `channel_state != ONHOOK`). -/
theorem c1_origination_busy_check (st : ChannelState) (channels : Nat) (n : Int) :
    ((ast_lantiq_call st).1 = -1 ↔ st ≠ .ONHOOK) ∧
    ((ast_lantiq_call st).1 = 0 ↔ st = .ONHOOK) ∧
    (Action.queueControl AST_CONTROL_BUSY ∈ (ast_lantiq_call st).2.2 ↔ st ≠ .ONHOOK) ∧
    (Action.ringStart ∈ (ast_lantiq_call st).2.2 ↔ st = .ONHOOK) ∧
    ((ast_lantiq_call st).2.1 = if st = .ONHOOK then .RINGING else st) ∧
    (ast_lantiq_requester_creates channels n st = true ↔
      1 ≤ n ∧ n ≤ (channels : Int) ∧ st = .ONHOOK) := by
  have hb : requester_busy_check st = false ↔ st = .ONHOOK := by
    cases st <;> decide
  refine ⟨?_, ?_, ?_, ?_, ?_, ?_⟩
  · cases st <;> decide
  · cases st <;> decide
  · cases st <;> decide
  · cases st <;> decide
  · cases st <;> decide
  · unfold ast_lantiq_requester_creates
    constructor
    · intro h
      by_cases hr : n < 1 ∨ (channels : Int) < n
      · rw [if_pos hr] at h
        exact absurd h (by decide)
      · rw [if_neg hr] at h
        have hcb : requester_busy_check st = false := by
          cases hcb2 : requester_busy_check st
          · rfl
          · rw [hcb2] at h
            exact absurd h (by decide)
        exact ⟨by omega, by omega, hb.mp hcb⟩
    · rintro ⟨h1, h2, h3⟩
      have hr : ¬(n < 1 ∨ (channels : Int) < n) := by omega
      rw [if_neg hr, hb.mpr h3]
      rfl

/-- C2: consecutive packets handed to the media transport by
`ast_lantiq_write` carry sequence numbers that differ by exactly 1
modulo 2^16 (so 65535 is followed by 0). -/
theorem c2_seqno_increments_mod_2_16 (pvt : RtpPvt) (f : Frame) (wr : Nat → Int)
    (i : Nat) (h : i + 1 < (ast_lantiq_write pvt f wr).packets.length) :
    ((ast_lantiq_write pvt f wr).packets.get ⟨i + 1, h⟩).seqno =
      (((ast_lantiq_write pvt f wr).packets.get ⟨i, Nat.lt_of_succ_lt h⟩).seqno + 1) %
        65536 :=
  seqChain_get (ast_lantiq_write_seqChain pvt f wr) i h

/-- C2 witness: a concrete two-chunk frame starting at sequence number
65535 wraps to 0 on its second packet. -/
theorem c2_witness :
    (ast_lantiq_write pvtWrap fTwoChunks wrOk).packets.length = 2 ∧
    ((ast_lantiq_write pvtWrap fTwoChunks wrOk).packets.get ⟨0, by decide⟩).seqno = 65535 ∧
    ((ast_lantiq_write pvtWrap fTwoChunks wrOk).packets.get ⟨1, by decide⟩).seqno = 0 ∧
    ((ast_lantiq_write pvtWrap fTwoChunks wrOk).packets.get ⟨1, by decide⟩).seqno =
      (((ast_lantiq_write pvtWrap fTwoChunks wrOk).packets.get
          ⟨0, Nat.lt_of_succ_lt (by decide)⟩).seqno + 1) % 65536 :=
  ⟨by decide, by decide, by decide,
   c2_seqno_increments_mod_2_16 pvtWrap fTwoChunks wrOk 0 (by decide)⟩

/-- C3: the RTP timestamp advances per chunk by the chunk's sample count
(`length * frame->samples / frame->datalen`), halved exactly when the
negotiated payload type is `RTP_G722` (9); in particular `RTP_SIREN7`
(105) and every other payload type get the unhalved advance. -/
theorem c3_timestamp_advance (pvt : RtpPvt) (f : Frame) (wr : Nat → Int)
    (i : Nat) (h : i + 1 < (ast_lantiq_write pvt f wr).packets.length) :
    ((ast_lantiq_write pvt f wr).packets.get ⟨i + 1, h⟩).timestamp =
      (((ast_lantiq_write pvt f wr).packets.get ⟨i, Nat.lt_of_succ_lt h⟩).timestamp +
        tsAdvance pvt.rtp_payload f.samples f.datalen
          ((ast_lantiq_write pvt f wr).packets.get
            ⟨i, Nat.lt_of_succ_lt h⟩).payloadLen) % 4294967296 ∧
    (∀ plen, tsAdvance RTP_G722 f.samples f.datalen plen =
      chunkSamples f.samples f.datalen plen / 2) ∧
    (∀ plen, pvt.rtp_payload ≠ RTP_G722 →
      tsAdvance pvt.rtp_payload f.samples f.datalen plen =
        chunkSamples f.samples f.datalen plen) ∧
    (∀ plen, tsAdvance RTP_SIREN7 f.samples f.datalen plen =
      chunkSamples f.samples f.datalen plen) := by
  refine ⟨tsChain_get (ast_lantiq_write_tsChain pvt f wr) i h, ?_, ?_, ?_⟩
  · intro plen
    simp [tsAdvance]
  · intro plen hne
    simp [tsAdvance, hne]
  · intro plen
    simp [tsAdvance, RTP_SIREN7, RTP_G722]

/-- C3 witness: a concrete G722 run; each 500-byte chunk represents 160
samples and the timestamp advances by 80. -/
theorem c3_witness :
    ((ast_lantiq_write pvtG722 fG722 wrOk).packets.get ⟨1, by decide⟩).timestamp =
      (((ast_lantiq_write pvtG722 fG722 wrOk).packets.get
          ⟨0, Nat.lt_of_succ_lt (by decide)⟩).timestamp +
        tsAdvance pvtG722.rtp_payload fG722.samples fG722.datalen
          ((ast_lantiq_write pvtG722 fG722 wrOk).packets.get
            ⟨0, Nat.lt_of_succ_lt (by decide)⟩).payloadLen) % 4294967296 ∧
    ((ast_lantiq_write pvtG722 fG722 wrOk).packets.get ⟨1, by decide⟩).timestamp = 80 :=
  ⟨(c3_timestamp_advance pvtG722 fG722 wrOk 0 (by decide)).1, by decide⟩

/-- C4: every packet emitted by `ast_lantiq_write` has a payload of at
most `RTP_BUFFER_LEN - RTP_HEADER_LEN` (500) bytes, so header plus
payload always fit the 512-byte buffer. -/
theorem c4_payload_at_most_500 (pvt : RtpPvt) (f : Frame) (wr : Nat → Int)
    (hpt : 1 ≤ pvt.ptime) (hlen : 1 ≤ f.len) :
    ∀ pkt ∈ (ast_lantiq_write pvt f wr).packets,
      pkt.payloadLen ≤ RTP_BUFFER_LEN - RTP_HEADER_LEN ∧
      RTP_HEADER_LEN + pkt.payloadLen ≤ RTP_BUFFER_LEN := by
  intro pkt hm
  unfold ast_lantiq_write at hm
  split_ifs at hm with g1 g2 g3
  · exact absurd hm (by simp)
  · exact absurd hm (by simp)
  · exact absurd hm (by simp)
  · have hd : 0 < f.datalen := Nat.pos_of_ne_zero g3
    have hs : 0 < subframesOf pvt.ptime f.len := by
      show 1 ≤ subframesOf pvt.ptime f.len
      unfold subframesOf
      rw [Nat.le_div_iff_mul_le hpt]
      omega
    have hc : (RTP_BUFFER_LEN - RTP_HEADER_LEN) * subframesOf pvt.ptime f.len /
        f.datalen * f.datalen / subframesOf pvt.ptime f.len ≤
        RTP_BUFFER_LEN - RTP_HEADER_LEN := by
      have hconst : RTP_BUFFER_LEN - RTP_HEADER_LEN = 500 := by
        norm_num [RTP_BUFFER_LEN, RTP_HEADER_LEN]
      rw [hconst]
      exact clen0_le_500 _ _ hs hd
    have hb := writeLoop_payload_le pvt.rtp_payload f.samples f.datalen _ wr hc
      (f.datalen + 1) 0 pvt.rtp_seqno pvt.rtp_timestamp 0 pkt hm
    refine ⟨hb, ?_⟩
    have hconst2 : RTP_HEADER_LEN + (RTP_BUFFER_LEN - RTP_HEADER_LEN) = RTP_BUFFER_LEN := by
      norm_num [RTP_BUFFER_LEN, RTP_HEADER_LEN]
    omega

/-- C4 witness: both packets of a concrete two-chunk run respect the
500-byte payload budget. -/
theorem c4_witness :
    1 ≤ pvtWrap.ptime ∧ 1 ≤ fTwoChunks.len ∧
    ∀ pkt ∈ (ast_lantiq_write pvtWrap fTwoChunks wrOk).packets,
      pkt.payloadLen ≤ RTP_BUFFER_LEN - RTP_HEADER_LEN ∧
      RTP_HEADER_LEN + pkt.payloadLen ≤ RTP_BUFFER_LEN :=
  ⟨by decide, by decide, c4_payload_at_most_500 pvtWrap fTwoChunks wrOk (by decide) (by decide)⟩

/-- C5: the dial buffer never reaches the `dtmfbuf` array capacity
`AST_MAX_EXTENSION` under any event sequence, and a non-terminator digit
arriving with `AST_MAX_EXTENSION - 1` digits buffered is not appended:
dialing is aborted as a failed attempt (busy tone, `CALL_ENDED`) and the
buffer is reset. -/
theorem c5_dial_buffer_invariant :
    (∀ (env : Env) (s : LantiqPvt) (evs : List Event),
      s.dtmfbuf.length < AST_MAX_EXTENSION →
      (runEvents env s evs).dtmfbuf.length < AST_MAX_EXTENSION) ∧
    (∀ (env : Env) (s : LantiqPvt) (d : Char),
      s.channel_state = .DIALING → d ≠ '#' →
      s.dtmfbuf.length = AST_MAX_EXTENSION - 1 →
      (lantiq_dev_event_digit env s d).1.dtmfbuf = [] ∧
      (lantiq_dev_event_digit env s d).1.channel_state = .CALL_ENDED ∧
      Action.playTone TAPI_TONE_LOCALE_BUSY_CODE ∈ (lantiq_dev_event_digit env s d).2) := by
  constructor
  · intro env s evs
    induction evs generalizing s with
    | nil => intro h; exact h
    | cons e es ih =>
      intro h
      exact ih _ (step_dtmfbuf_lt env s e h)
  · intro env s d h1 h2 h3
    rcases s with ⟨cs, buf, tim, ow, a⟩
    obtain rfl : cs = ChannelState.DIALING := h1
    have h3' : buf.length = AST_MAX_EXTENSION - 1 := h3
    have hnlt : ¬(buf.length < AST_MAX_EXTENSION - 1) := by omega
    refine ⟨?_, ?_, ?_⟩ <;>
      simp [lantiq_dev_event_digit, h2, hnlt, lantiq_end_dialing, lantiq_reset_dtmfbuf]

/-- C5 witness: two digits stay within bounds from a fresh off-hook port,
and a full buffer aborts to `CALL_ENDED` with a busy tone and an empty
buffer. -/
theorem c5_witness :
    (runEvents envNoExt sOffhook [Event.digit '1', Event.digit '2']).dtmfbuf.length <
      AST_MAX_EXTENSION ∧
    ((lantiq_dev_event_digit envNoExt sDialFull '1').1.dtmfbuf = [] ∧
     (lantiq_dev_event_digit envNoExt sDialFull '1').1.channel_state = .CALL_ENDED ∧
     Action.playTone TAPI_TONE_LOCALE_BUSY_CODE ∈
       (lantiq_dev_event_digit envNoExt sDialFull '1').2) :=
  ⟨c5_dial_buffer_invariant.1 envNoExt sOffhook _ (by decide),
   c5_dial_buffer_invariant.2 envNoExt sDialFull '1' rfl (by decide) (by decide)⟩

/-- C6 counterexample: when the dialplan lookup succeeds but the call-leg
allocation fails, `lantiq_dial` takes `goto bailout` and leaves the digit
buffer non-empty, so "after every dial attempt the digit buffer is empty"
fails on the code. -/
theorem c6_counterexample :
    ¬((lantiq_dial envAllocFail sDialOne).1.dtmfbuf = []) := by decide

/-- C6 (amended): after a dial attempt the digit buffer is empty whenever
the dialplan lookup fails or the call-leg allocation succeeds; when the
lookup succeeds but allocation fails, the attempt aborts with the port
(in particular its digit buffer) unchanged and no side effect. -/
theorem c6_buffer_cleared_amended (env : Env) (s : LantiqPvt) :
    (env.extExists s.dtmfbuf = false ∨ env.allocOk = true →
      (lantiq_dial env s).1.dtmfbuf = []) ∧
    (env.extExists s.dtmfbuf = true → env.allocOk = false →
      (lantiq_dial env s).1 = s ∧ (lantiq_dial env s).2 = []) := by
  constructor
  · intro h
    unfold lantiq_dial
    rcases h with h | h
    · simp [h, lantiq_reset_dtmfbuf]
    · by_cases h1 : env.extExists s.dtmfbuf = true
      · by_cases h3 : env.pbxOk = true
        · simp [h1, h, h3, lantiq_reset_dtmfbuf]
        · simp [h1, h, h3, lantiq_reset_dtmfbuf]
      · simp [h1, lantiq_reset_dtmfbuf]
  · intro h1 h2
    unfold lantiq_dial
    simp [h1, h2]

/-- C6 witness: a successful dial clears the buffer; the concrete
allocation-failure input leaves the port untouched. -/
theorem c6_witness :
    (lantiq_dial envAllOk sDialTwo).1.dtmfbuf = [] ∧
    ((lantiq_dial envAllocFail sDialOne).1 = sDialOne ∧
     (lantiq_dial envAllocFail sDialOne).2 = []) :=
  ⟨(c6_buffer_cleared_amended envAllOk sDialTwo).1 (Or.inr rfl),
   (c6_buffer_cleared_amended envAllocFail sDialOne).2 rfl rfl⟩

/-- C7: firing the inter-digit timer on a `DIALING` port produces exactly
the state and side effects of pressing `#` there (a dial attempt with the
buffered digits), while on a port back in `ONHOOK` the firing only clears
the timer handle: no dial attempt, no other state change, no action. -/
theorem c7_timeout_equals_hash :
    (∀ (env : Env) (s : LantiqPvt), s.channel_state = .DIALING →
      lantiq_event_dial_timeout env s = lantiq_dev_event_digit env s '#') ∧
    (∀ (env : Env) (s : LantiqPvt), s.channel_state = .ONHOOK →
      lantiq_event_dial_timeout env s = ({ s with dial_timer := false }, [])) := by
  constructor
  · intro env s h
    rcases s with ⟨cs, buf, tim, ow, a⟩
    obtain rfl : cs = ChannelState.DIALING := h
    cases tim <;>
      simp [lantiq_event_dial_timeout, lantiq_dev_event_digit, cNot, ChannelState.toNat]
  · intro env s h
    rcases s with ⟨cs, buf, tim, ow, a⟩
    obtain rfl : cs = ChannelState.ONHOOK := h
    simp [lantiq_event_dial_timeout, cNot, ChannelState.toNat]

/-- C7 witness: concrete timer firings on a dialing port and on an idle
port. -/
theorem c7_witness :
    lantiq_event_dial_timeout envNoExt sDialOne =
      lantiq_dev_event_digit envNoExt sDialOne '#' ∧
    lantiq_event_dial_timeout envNoExt sOnhookIdle =
      ({ sOnhookIdle with dial_timer := false }, []) :=
  ⟨c7_timeout_equals_hash.1 envNoExt sDialOne rfl,
   c7_timeout_equals_hash.2 envNoExt sOnhookIdle rfl⟩

/-- C8: a hardware on-hook event on a port in `INCALL` with an owning
call leg captures the jitter-buffer statistics exactly once, queues
exactly one hangup request to the leg, and moves the port to `ONHOOK`. -/
theorem c8_incall_onhook_teardown (s : LantiqPvt)
    (h1 : s.channel_state = .INCALL) (h2 : s.owner = true) :
    (lantiq_dev_event_hook s true).1.channel_state = .ONHOOK ∧
    (lantiq_dev_event_hook s true).2.count Action.jbGetStats = 1 ∧
    (lantiq_dev_event_hook s true).2.count Action.queueHangup = 1 := by
  rcases s with ⟨cs, buf, tim, ow, a⟩
  obtain rfl : cs = ChannelState.INCALL := h1
  obtain rfl : ow = true := h2
  refine ⟨rfl, ?_, ?_⟩ <;> rfl

/-- C8 witness: the concrete in-call port. -/
theorem c8_witness :
    (lantiq_dev_event_hook sInCall true).1.channel_state = .ONHOOK ∧
    (lantiq_dev_event_hook sInCall true).2.count Action.jbGetStats = 1 ∧
    (lantiq_dev_event_hook sInCall true).2.count Action.queueHangup = 1 :=
  c8_incall_onhook_teardown sInCall rfl rfl

/-- C9: `ast_lantiq_devicestate` accepts exactly when the parsed number
minus 1 lies in `1..channels`; a query for port number 1 always yields
`AST_DEVICE_INVALID`, while a query for `channels + 1` is accepted and
indexes one entry past the end of the port table. -/
theorem c9_devicestate_off_by_one (table : List ChannelState) (n : Int)
    (h : 1 ≤ table.length) :
    (devicestate_rejects table.length n = false ↔
      1 ≤ n - 1 ∧ n - 1 ≤ (table.length : Int)) ∧
    ast_lantiq_devicestate table 1 = some AST_DEVICE_INVALID ∧
    devicestate_rejects table.length ((table.length : Int) + 1) = false ∧
    ast_lantiq_devicestate table ((table.length : Int) + 1) = none := by
  refine ⟨?_, ?_, ?_, ?_⟩
  · simp only [devicestate_rejects, Bool.or_eq_false_iff, decide_eq_false_iff_not]
    omega
  · have hrej1 : devicestate_rejects table.length 1 = true := by
      unfold devicestate_rejects
      have h0 : ((1 : Int) - 1 < 1) := by norm_num
      simp [h0]
    simp [ast_lantiq_devicestate, hrej1]
  · simp only [devicestate_rejects, Bool.or_eq_false_iff, decide_eq_false_iff_not]
    omega
  · have hrej : devicestate_rejects table.length ((table.length : Int) + 1) = false := by
      simp only [devicestate_rejects, Bool.or_eq_false_iff, decide_eq_false_iff_not]
      omega
    have hidx : (((table.length : Int) + 1) - 1).toNat = table.length := by omega
    have hget : table.get? ((((table.length : Int) + 1) - 1).toNat) = none := by
      rw [hidx]
      exact List.get?_eq_none.mpr (le_refl _)
    simp [ast_lantiq_devicestate, hrej, hget]

/-- C9 witness: with a one-port table, port number 1 is invalid and port
number 2 (`channels + 1`) is accepted but reads past the table. -/
theorem c9_witness :
    ast_lantiq_devicestate [ChannelState.ONHOOK] 1 = some AST_DEVICE_INVALID ∧
    devicestate_rejects [ChannelState.ONHOOK].length
      (([ChannelState.ONHOOK].length : Int) + 1) = false ∧
    ast_lantiq_devicestate [ChannelState.ONHOOK]
      (([ChannelState.ONHOOK].length : Int) + 1) = none :=
  ⟨(c9_devicestate_off_by_one [ChannelState.ONHOOK] 1 (by decide)).2.1,
   (c9_devicestate_off_by_one [ChannelState.ONHOOK] 1 (by decide)).2.2.1,
   (c9_devicestate_off_by_one [ChannelState.ONHOOK] 1 (by decide)).2.2.2⟩

/-- C10: when a media-transport write returns a negative result,
`ast_lantiq_write` returns -1 immediately: the packets handed to `write`
are exactly the chunks up to and including the failing one (all earlier
writes were non-negative), yet the port's sequence number and RTP
timestamp have already been advanced for the failing chunk. -/
theorem c10_write_failure_nonatomic (pvt : RtpPvt) (f : Frame) (wr : Nat → Int)
    (hcode : (ast_lantiq_write pvt f wr).code = -1) :
    ∃ pre pkt,
      (ast_lantiq_write pvt f wr).packets = pre ++ [pkt] ∧
      wr pre.length < 0 ∧
      (∀ i < pre.length, 0 ≤ wr i) ∧
      (ast_lantiq_write pvt f wr).seqno = (pkt.seqno + 1) % 65536 ∧
      (ast_lantiq_write pvt f wr).timestamp =
        (pkt.timestamp + tsAdvance pvt.rtp_payload f.samples f.datalen pkt.payloadLen) %
          4294967296 := by
  unfold ast_lantiq_write at hcode ⊢
  by_cases g1 : f.frametype ≠ AST_FRAME_VOICE
  · rw [if_pos g1] at hcode
    simp at hcode
  · rw [if_neg g1] at hcode ⊢
    by_cases g2 : f.codec ≠ pvt.codec
    · rw [if_pos g2] at hcode
      simp at hcode
    · rw [if_neg g2] at hcode ⊢
      by_cases g3 : f.datalen = 0
      · rw [if_pos g3] at hcode
        simp at hcode
      · rw [if_neg g3] at hcode ⊢
        obtain ⟨pre, pkt, ha, hb, hcnt, hs, ht⟩ :=
          writeLoop_fail_prefix _ _ _ _ wr _ _ _ _ _ hcode
        exact ⟨pre, pkt, ha, by simpa using hb, by simpa using hcnt, hs, ht⟩

/-- C10 witness: a concrete run whose first write fails. -/
theorem c10_witness :
    ∃ pre pkt,
      (ast_lantiq_write pvtA fSixHundred wrFail).packets = pre ++ [pkt] ∧
      wrFail pre.length < 0 ∧
      (∀ i < pre.length, 0 ≤ wrFail i) ∧
      (ast_lantiq_write pvtA fSixHundred wrFail).seqno = (pkt.seqno + 1) % 65536 ∧
      (ast_lantiq_write pvtA fSixHundred wrFail).timestamp =
        (pkt.timestamp +
          tsAdvance pvtA.rtp_payload fSixHundred.samples fSixHundred.datalen
            pkt.payloadLen) % 4294967296 :=
  c10_write_failure_nonatomic pvtA fSixHundred wrFail (by decide)

end ChanLantiq
